import Mathlib

/-!
Shallow embedding of `custom_components/bht1000/bht1000.py`.

This file embeds the frame codec (`Payload`, `IncomingPayload`, `StatusPayload`,
`OutgoingPayload` and the concrete command payloads) and the stateful controller
(`BHT1000`) of the BHT1000 thermostat client, and proves properties of them.

Modelling conventions:
* Python `int` is embedded as `Int` (unbounded, signed); byte values produced by
  `bytearray.append` are `Nat` values with an explicit `< 256` range check,
  because `append` raises `ValueError` outside `0..255`.
* Python `float` is embedded as `ℚ` (all values the code manipulates are exact
  half-integers divided out of small integers, plus the user-supplied
  hysteresis; the claims are about comparison structure, not rounding).
* Python `x & 0xFF` on an arbitrary integer equals `x % 256` with a
  non-negative remainder (two's-complement semantics), and is embedded as
  `Int.emod`.
* Network and socket I/O is abstracted by an oracle `Net` mapping the bytes
  written to the socket to either an exception (`NetResult.err`, standing for
  any `socket.timeout`/`OSError` raised while connecting, sending or
  receiving) or the raw bytes received.  The `with socket...` block closes the
  socket on every exit path before the response is interpreted; the socket
  operation *sequence* is modelled separately (`socketTrace`).
-/

/-! ## Module level constants (`bht1000.py` lines 10-20) -/

def WEEKLY_MODE : String := "weekly"

def MANUAL_MODE : String := "manual"

def ID0 : Int := 0x01

def ID1 : Int := 0x01

def FLAG_LOCK : Int := 0x04

def FLAG_MANUAL_MODE : Int := 0x08

def FLAG_POWER : Int := 0x10

def STATE_ON : String := "on"

def STATE_OFF : String := "off"

/-! ## Python `int(text, 16)` (used by `IncomingPayload.__init__`)

`int(b, 16)` on a bytes slice: strips ASCII whitespace at both ends, accepts an
optional single sign, an optional `0x`/`0X` prefix (optionally followed by one
underscore), then hexadecimal digits with single underscores allowed between
digits; raises `ValueError` otherwise.  We embed it as a total function into
`Option Int`. -/

def isPyWhitespace (c : Char) : Bool :=
  c = ' ' || c = '\t' || c = '\n' || c = '\x0d' || c = '\x0b' || c = '\x0c'

def hexVal (c : Char) : Option Nat :=
  if '0' ≤ c ∧ c ≤ '9' then some (c.toNat - '0'.toNat)
  else if 'a' ≤ c ∧ c ≤ 'f' then some (c.toNat - 'a'.toNat + 10)
  else if 'A' ≤ c ∧ c ≤ 'F' then some (c.toNat - 'A'.toNat + 10)
  else none

/-- Digits after the first one: single underscores may separate digits. -/
def hexRunAux : List Char → Nat → Option Nat
  | [], acc => some acc
  | '_' :: c :: rest, acc =>
    match hexVal c with
    | some v => hexRunAux rest (acc * 16 + v)
    | none => none
  | c :: rest, acc =>
    match hexVal c with
    | some v => hexRunAux rest (acc * 16 + v)
    | none => none

/-- A non-empty run of hex digits (with inner underscores), value in `Nat`. -/
def parseHexDigits : List Char → Option Nat
  | [] => none
  | c :: rest =>
    match hexVal c with
    | some v => hexRunAux rest v
    | none => none

def pyStrip (s : List Char) : List Char :=
  ((s.dropWhile isPyWhitespace).reverse.dropWhile isPyWhitespace).reverse

/-- Embedding of CPython `int(s, 16)` on an ASCII byte string. -/
def pyIntHex (s : List Char) : Option Int :=
  let t := pyStrip s
  let sgn : Int := if t.head? = some '-' then -1 else 1
  let u := if t.head? = some '-' ∨ t.head? = some '+' then t.tail else t
  let body :=
    if u.head? = some '0' ∧ (u.tail.head? = some 'x' ∨ u.tail.head? = some 'X') then
      if u.tail.tail.head? = some '_' then parseHexDigits u.tail.tail.tail
      else parseHexDigits u.tail.tail
    else parseHexDigits u
  body.map fun n => sgn * n

/-! ## Frames

`Payload.__init__` (lines 23-58) stores the eight fields; every accessor
`get_command` … `get_checksum` is a field projection. -/

structure Payload where
  command : Int
  id0 : Int
  id1 : Int
  data0 : Int
  data1 : Int
  data2 : Int
  data3 : Int
  checksum : Int
  deriving DecidableEq

/-- Python slice `s[a:b]` on a byte string (no negative indices occur). -/
def pySlice (s : List Char) (a b : Nat) : List Char :=
  (s.drop a).take (b - a)

/-- `IncomingPayload.__init__` (lines 96-114): the eight `int(payload[i:i+2], 16)`
calls are evaluated left to right and the first `ValueError` aborts the
construction; embedded as an `Option.bind` chain. -/
def IncomingPayload.decode (payload : List Char) : Option Payload :=
  (pyIntHex (pySlice payload 0 2)).bind fun command =>
  (pyIntHex (pySlice payload 2 4)).bind fun id0 =>
  (pyIntHex (pySlice payload 4 6)).bind fun id1 =>
  (pyIntHex (pySlice payload 6 8)).bind fun data0 =>
  (pyIntHex (pySlice payload 8 10)).bind fun data1 =>
  (pyIntHex (pySlice payload 10 12)).bind fun data2 =>
  (pyIntHex (pySlice payload 12 14)).bind fun data3 =>
  (pyIntHex (pySlice payload 14 16)).map fun checksum =>
  ⟨command, id0, id1, data0, data1, data2, data3, checksum⟩

/-! `StatusPayload` accessors (lines 117-154).  Python `&` on ints is
two's-complement bitwise and, i.e. `Int.land`. -/

def StatusPayload.is_valid (p : Payload) : Bool :=
  p.command == 0x50 && p.id0 == 0x01 && p.id1 == 0x01

def StatusPayload.is_locked (p : Payload) : Bool :=
  Int.land FLAG_LOCK p.data0 == FLAG_LOCK

def StatusPayload.get_mode (p : Payload) : String :=
  if Int.land FLAG_MANUAL_MODE p.data0 = FLAG_MANUAL_MODE then MANUAL_MODE
  else WEEKLY_MODE

def StatusPayload.is_on (p : Payload) : Bool :=
  Int.land FLAG_POWER p.data0 == FLAG_POWER

def StatusPayload.get_calibration (p : Payload) : Int :=
  p.data1 - 256

def StatusPayload.get_setpoint (p : Payload) : ℚ :=
  (p.data2 : ℚ) / 2

def StatusPayload.get_temperature (p : Payload) : ℚ :=
  (p.data3 : ℚ) / 2

/-! ## Outgoing payloads (lines 157-315) -/

/-- `OutgoingPayload.__init__` fixes `id0 = ID0`, `id1 = ID1` and computes the
checksum from the other fields, so an outgoing payload is determined by
`command, data0..data3`. -/
structure OutgoingPayload where
  command : Int
  data0 : Int
  data1 : Int
  data2 : Int
  data3 : Int
  deriving DecidableEq

/-- `OutgoingPayload.__calculate_checksum` (line 213):
`(command + id0 + id1 + data0 + data1 + data2 + data3) & 0xFF ^ 0xA5`; `&`
binds tighter than `^` in Python, and `x & 0xFF = x % 256 ∈ [0, 256)`. -/
def calculate_checksum (command id0 id1 data0 data1 data2 data3 : Int) : Int :=
  Int.ofNat ((((command + id0 + id1 + data0 + data1 + data2 + data3) % 256).toNat) ^^^ 0xA5)

def OutgoingPayload.checksum (p : OutgoingPayload) : Int :=
  calculate_checksum p.command ID0 ID1 p.data0 p.data1 p.data2 p.data3

/-- `OutgoingPayload.getBytesHex` (lines 215-236): eight `bytearray.append`
calls; `append` raises `ValueError` for a value outside `0..255`, which the
caller's `except` turns into failure, so the result is an `Option`.  `ID0`,
`ID1` and the checksum are always in range (the checksum is
`(_ % 256) ^^^ 0xA5 < 256`), so only the five variable fields are checked. -/
def OutgoingPayload.getBytesHex (p : OutgoingPayload) : Option (List Nat) :=
  if 0 ≤ p.command ∧ p.command < 256 ∧ 0 ≤ p.data0 ∧ p.data0 < 256 ∧
      0 ≤ p.data1 ∧ p.data1 < 256 ∧ 0 ≤ p.data2 ∧ p.data2 < 256 ∧
      0 ≤ p.data3 ∧ p.data3 < 256 then
    some [p.command.toNat, ID0.toNat, ID1.toNat, p.data0.toNat, p.data1.toNat,
      p.data2.toNat, p.data3.toNat, p.checksum.toNat]
  else none

/-- `ReadStatusCommandPayload.__init__` (line 244). -/
def ReadStatusCommandPayload : OutgoingPayload :=
  ⟨0xA0, 0x00, 0x00, 0x00, 0x00⟩

/-- Python `int(float)` truncates toward zero. -/
def pyTrunc (q : ℚ) : Int :=
  if q < 0 then ⌈q⌉ else ⌊q⌋

/-- `SetAllDataCommandPayload.__init__` (lines 251-283). -/
def SetAllDataCommandPayload (mode power lock : String) (calibration : Int)
    (setpoint : ℚ) : OutgoingPayload :=
  let data0 : Int := 0x00
  let data0 : Int := if lock = STATE_ON then Int.lor data0 FLAG_LOCK else data0
  let data0 : Int := if mode = MANUAL_MODE then Int.lor data0 FLAG_MANUAL_MODE else data0
  let data0 : Int := if power = STATE_ON then Int.lor data0 FLAG_POWER else data0
  ⟨0xA1, data0,
    if calibration < 0 then calibration + 256 else calibration,
    pyTrunc (setpoint * 2),
    0x00⟩

/-- `UnLockCommandPayload.__init__` (line 291). -/
def UnLockCommandPayload : OutgoingPayload :=
  ⟨0xA4, 0, 1, 1, 1⟩

/-- `LockCommandPayload.__init__` (line 300). -/
def LockCommandPayload : OutgoingPayload :=
  ⟨0xA4, 1, 1, 1, 1⟩

/-- `SetTimeCommandPayload.__init__` (line 314): data fields are
`(time.second, time.minute, time.hour, time.weekday() + 1)` with
`weekday ∈ 0..6` (0 = Monday). -/
def SetTimeCommandPayload (second minute hour weekday : Nat) : OutgoingPayload :=
  ⟨0xA8, second, minute, hour, (weekday : Int) + 1⟩

/-! ## `binascii.hexlify`: raw bytes to lowercase ASCII hex text -/

def hexDigitChar (n : Nat) : Char :=
  match n with
  | 0 => '0' | 1 => '1' | 2 => '2' | 3 => '3'
  | 4 => '4' | 5 => '5' | 6 => '6' | 7 => '7'
  | 8 => '8' | 9 => '9' | 10 => 'a' | 11 => 'b'
  | 12 => 'c' | 13 => 'd' | 14 => 'e' | _ => 'f'

def byteToHex (b : Nat) : List Char :=
  [hexDigitChar (b / 16), hexDigitChar (b % 16)]

def hexlify (bs : List Nat) : List Char :=
  (bs.map byteToHex).flatten

/-! ## The controller `BHT1000` (lines 318-616)

`host` and `port` are `Final` and feed only the socket calls, which are
abstracted by the `Net` oracle below, so they are not part of the state.
Fields appear in the order they are initialised in `BHT1000.__init__`
(lines 333-342). -/

structure BHT1000 where
  hysteresis : ℚ
  current_temperature : Option ℚ
  setpoint : Option ℚ
  power : Option String
  mode : Option String
  locked : Option String
  calibration : Option Int
  idle : Option Bool
  deriving DecidableEq

/-- `BHT1000.__init__` (lines 321-343): every snapshot field starts as `None`. -/
def BHT1000.init (hysteresis : ℚ) : BHT1000 :=
  ⟨hysteresis, none, none, none, none, none, none, none⟩

/-- Outcome of one socket exchange: `err` stands for any exception raised
while connecting, sending or receiving (timeout, connection error); `ok bs`
for the raw bytes returned by `sock.recv(64)`. -/
inductive NetResult where
  | err : NetResult
  | ok : List Nat → NetResult

/-- The network oracle: what one fresh connection returns for the bytes
written to it. -/
abbrev Net := List Nat → NetResult

/-- `wasIdle = self._idle is True or self._idle is None` (line 583). -/
def BHT1000.wasIdle (idle : Option Bool) : Bool :=
  match idle with
  | some true => true
  | none => true
  | some false => false

/-- The snapshot update of `__sendCommand` for a valid status response
(lines 583-608): replaces the six mirrored fields and then derives `_idle`
from the *new* temperature/setpoint/power and the *previous* idle state.
`wasIdle` is captured before the update (line 583); the `else` branches
assign `self._idle = wasIdle` / `True` (lines 606, 608). -/
def BHT1000.applyStatus (st : BHT1000) (response : Payload) : BHT1000 :=
  let wasIdle := BHT1000.wasIdle st.idle
  let current_temperature := StatusPayload.get_temperature response
  let setpoint := StatusPayload.get_setpoint response
  let power := if StatusPayload.is_on response then STATE_ON else STATE_OFF
  let idle : Bool :=
    if power = STATE_ON then
      if wasIdle = true ∧ current_temperature < setpoint - st.hysteresis / 2 then
        false
      else
        if wasIdle = false ∧ current_temperature > setpoint + st.hysteresis / 2 then
          true
        else
          wasIdle
    else
      true
  { st with
    current_temperature := some current_temperature
    setpoint := some setpoint
    calibration := some (StatusPayload.get_calibration response)
    power := some power
    mode := some (StatusPayload.get_mode response)
    locked := some (if StatusPayload.is_locked response then STATE_ON else STATE_OFF)
    idle := some idle }

/-- `BHT1000.__sendCommand` (lines 559-616).  The `with socket...` block
yields either an exception (`NetResult.err`, also covering the `ValueError`
of `getBytesHex`) or the received bytes, which `binascii.hexlify` turns into
hex text; then `len > 3` gate, decode, `is_valid` gate, snapshot update. -/
def BHT1000.sendCommand (st : BHT1000) (command : OutgoingPayload) (net : Net) :
    Bool × BHT1000 :=
  match command.getBytesHex with
  | none => (false, st)
  | some bytesToSend =>
    match net bytesToSend with
    | NetResult.err => (false, st)
    | NetResult.ok received =>
      let bytesReceived := hexlify received
      if 3 < bytesReceived.length then
        match IncomingPayload.decode bytesReceived with
        | none => (false, st)
        | some response =>
          if StatusPayload.is_valid response then
            (true, st.applyStatus response)
          else
            (false, st)
      else
        (false, st)

/-- `BHT1000.read_status` (lines 360-373).  The source discards the boolean
returned by `__sendCommand` and returns `True` whenever the call does not
raise; `__sendCommand` catches every exception internally and returns
`False` instead of raising, so the `except` branch of `read_status` is
unreachable and the result is always `True`. -/
def BHT1000.read_status (st : BHT1000) (net : Net) : Bool × BHT1000 :=
  (true, (st.sendCommand ReadStatusCommandPayload net).2)

/-- `BHT1000.__is_data_valid` (lines 516-527). -/
def BHT1000.is_data_valid (st : BHT1000) : Bool :=
  st.mode.isSome && st.power.isSome && st.locked.isSome &&
    st.calibration.isSome && st.setpoint.isSome

/-- `BHT1000.turn_on` (lines 375-393).  Under the guard every snapshot field
read is `some`, so `Option.getD` defaults are never used. -/
def BHT1000.turn_on (st : BHT1000) (net : Net) : Bool × BHT1000 :=
  if st.is_data_valid then
    st.sendCommand
      (SetAllDataCommandPayload (st.mode.getD "") STATE_ON (st.locked.getD "")
        (st.calibration.getD 0) (st.setpoint.getD 0)) net
  else
    (false, st)

/-- `BHT1000.turn_off` (lines 395-413). -/
def BHT1000.turn_off (st : BHT1000) (net : Net) : Bool × BHT1000 :=
  if st.is_data_valid then
    st.sendCommand
      (SetAllDataCommandPayload (st.mode.getD "") STATE_OFF (st.locked.getD "")
        (st.calibration.getD 0) (st.setpoint.getD 0)) net
  else
    (false, st)

/-- `BHT1000.set_temperature` (lines 415-435). -/
def BHT1000.set_temperature (st : BHT1000) (temperature : ℚ) (net : Net) :
    Bool × BHT1000 :=
  if st.is_data_valid then
    st.sendCommand
      (SetAllDataCommandPayload (st.mode.getD "") (st.power.getD "")
        (st.locked.getD "") (st.calibration.getD 0) temperature) net
  else
    (false, st)

/-- `BHT1000.lock` (lines 437-447). -/
def BHT1000.lock (st : BHT1000) (net : Net) : Bool × BHT1000 :=
  if st.is_data_valid then st.sendCommand LockCommandPayload net
  else (false, st)

/-- `BHT1000.unlock` (lines 449-459). -/
def BHT1000.unlock (st : BHT1000) (net : Net) : Bool × BHT1000 :=
  if st.is_data_valid then st.sendCommand UnLockCommandPayload net
  else (false, st)

/-- `BHT1000.set_manual_mode` (lines 461-479). -/
def BHT1000.set_manual_mode (st : BHT1000) (net : Net) : Bool × BHT1000 :=
  if st.is_data_valid then
    st.sendCommand
      (SetAllDataCommandPayload MANUAL_MODE (st.power.getD "")
        (st.locked.getD "") (st.calibration.getD 0) (st.setpoint.getD 0)) net
  else
    (false, st)

/-- `BHT1000.set_weekly_mode` (lines 481-499). -/
def BHT1000.set_weekly_mode (st : BHT1000) (net : Net) : Bool × BHT1000 :=
  if st.is_data_valid then
    st.sendCommand
      (SetAllDataCommandPayload WEEKLY_MODE (st.power.getD "")
        (st.locked.getD "") (st.calibration.getD 0) (st.setpoint.getD 0)) net
  else
    (false, st)

/-- `BHT1000.set_time` (lines 501-514). -/
def BHT1000.set_time (st : BHT1000) (second minute hour weekday : Nat)
    (net : Net) : Bool × BHT1000 :=
  if st.is_data_valid then st.sendCommand (SetTimeCommandPayload second minute hour weekday) net
  else (false, st)

/-! ## The socket operation sequence of one exchange (lines 566-578)

`__sendCommand` runs `socket.socket(...)` as a context manager: create the
socket, `settimeout(10)` (the one and only timeout, governing both `connect`
and `recv`), `connect`, `send`, `recv(64)`; `__exit__` closes the socket on
every exit path — normal completion or an exception raised at `connect`,
`send` or `recv` — before the response is interpreted (the `len`/decode/
validate steps are outside the `with` block). -/

inductive SocketOp where
  | create : SocketOp
  | settimeout : Nat → SocketOp
  | connect : SocketOp
  | send : SocketOp
  | recv : Nat → SocketOp
  | close : SocketOp
  deriving DecidableEq

/-- How far the exchange got before an exception (if any). -/
inductive ExchangePhase where
  | connectFail : ExchangePhase
  | sendFail : ExchangePhase
  | recvFail : ExchangePhase
  | complete : ExchangePhase
  deriving DecidableEq

/-- The socket operations `__sendCommand` performs, per outcome. -/
def socketTrace : ExchangePhase → List SocketOp
  | ExchangePhase.connectFail => [.create, .settimeout 10, .connect, .close]
  | ExchangePhase.sendFail => [.create, .settimeout 10, .connect, .send, .close]
  | ExchangePhase.recvFail => [.create, .settimeout 10, .connect, .send, .recv 64, .close]
  | ExchangePhase.complete => [.create, .settimeout 10, .connect, .send, .recv 64, .close]

/-- The timeout in effect at position `i` of an operation list: the argument
of the last `settimeout` strictly before `i` (`none` if no timeout was set). -/
def timeoutAt (ops : List SocketOp) (i : Nat) : Option Nat :=
  ((ops.take i).filterMap fun op =>
    match op with
    | SocketOp.settimeout s => some s
    | _ => none).getLast?

/-! ## The public operations as one step relation (for the invariants claim) -/

inductive ControllerOp where
  | readStatus : ControllerOp
  | turnOn : ControllerOp
  | turnOff : ControllerOp
  | setTemperature : ℚ → ControllerOp
  | lockOp : ControllerOp
  | unlockOp : ControllerOp
  | setManualMode : ControllerOp
  | setWeeklyMode : ControllerOp
  | setTime : Nat → Nat → Nat → Nat → ControllerOp

/-- Dispatch a public controller operation. -/
def runOp (op : ControllerOp) (st : BHT1000) (net : Net) : Bool × BHT1000 :=
  match op with
  | ControllerOp.readStatus => st.read_status net
  | ControllerOp.turnOn => st.turn_on net
  | ControllerOp.turnOff => st.turn_off net
  | ControllerOp.setTemperature t => st.set_temperature t net
  | ControllerOp.lockOp => st.lock net
  | ControllerOp.unlockOp => st.unlock net
  | ControllerOp.setManualMode => st.set_manual_mode net
  | ControllerOp.setWeeklyMode => st.set_weekly_mode net
  | ControllerOp.setTime s m h w => st.set_time s m h w net

/-! ## Helper lemmas -/

/-- `__sendCommand` either fails returning the state untouched, or succeeds
with the snapshot replaced by `applyStatus` of a valid response. -/
theorem sendCommand_cases (st : BHT1000) (cmd : OutgoingPayload) (net : Net) :
    st.sendCommand cmd net = (false, st) ∨
    ∃ r, StatusPayload.is_valid r = true ∧
      st.sendCommand cmd net = (true, st.applyStatus r) := by
  rcases hb : cmd.getBytesHex with _ | bs
  · exact Or.inl (by simp [BHT1000.sendCommand, hb])
  rcases hn : net bs with _ | received
  · exact Or.inl (by simp [BHT1000.sendCommand, hb, hn])
  by_cases hlen : 3 < (hexlify received).length
  · rcases hdec : IncomingPayload.decode (hexlify received) with _ | r
    · exact Or.inl (by simp [BHT1000.sendCommand, hb, hn, hlen, hdec])
    by_cases hv : StatusPayload.is_valid r = true
    · exact Or.inr ⟨r, hv, by simp [BHT1000.sendCommand, hb, hn, hlen, hdec, hv]⟩
    · exact Or.inl (by simp [BHT1000.sendCommand, hb, hn, hlen, hdec, hv])
  · exact Or.inl (by simp [BHT1000.sendCommand, hb, hn, hlen])

/-! ## Claim theorems -/

/-- Claim C1 (code bug): `read_status` is claimed to return `False` whenever
the exchange fails, but the source discards the boolean of `__sendCommand`
(which never raises, catching every exception itself), so `read_status`
returns `True` even for a failed exchange that left the snapshot
untouched.  Here the connection errors out, `__sendCommand` reports
failure, and `read_status` still returns `True` with the snapshot not
replaced. -/
theorem read_status_true_on_failed_exchange :
    ((BHT1000.init 1).sendCommand ReadStatusCommandPayload (fun _ => NetResult.err)).1 = false ∧
    (BHT1000.init 1).read_status (fun _ => NetResult.err) = (true, BHT1000.init 1) :=
  ⟨rfl, rfl⟩

/-- Claim C3: on every failure path of a command exchange (exception, short
response, undecodable or invalid frame) all seven snapshot fields are left
exactly as they were — no partial overwrite. -/
theorem sendCommand_failure_preserves_snapshot (st : BHT1000) (cmd : OutgoingPayload)
    (net : Net) (h : (st.sendCommand cmd net).1 = false) :
    (st.sendCommand cmd net).2.current_temperature = st.current_temperature ∧
    (st.sendCommand cmd net).2.setpoint = st.setpoint ∧
    (st.sendCommand cmd net).2.power = st.power ∧
    (st.sendCommand cmd net).2.mode = st.mode ∧
    (st.sendCommand cmd net).2.locked = st.locked ∧
    (st.sendCommand cmd net).2.calibration = st.calibration ∧
    (st.sendCommand cmd net).2.idle = st.idle := by
  rcases sendCommand_cases st cmd net with hc | ⟨r, hv, hc⟩
  · rw [hc]
    exact ⟨rfl, rfl, rfl, rfl, rfl, rfl, rfl⟩
  · rw [hc] at h
    simp at h

/-- Witness for C3 at a concrete failing exchange (transport error on a
fresh controller). -/
theorem sendCommand_failure_preserves_snapshot_witness :
    ((BHT1000.init 1).sendCommand ReadStatusCommandPayload (fun _ => NetResult.err)).1 = false ∧
    ((BHT1000.init 1).sendCommand ReadStatusCommandPayload (fun _ => NetResult.err)).2.idle
      = (BHT1000.init 1).idle :=
  ⟨rfl, (sendCommand_failure_preserves_snapshot (BHT1000.init 1) ReadStatusCommandPayload
    (fun _ => NetResult.err) rfl).2.2.2.2.2.2⟩

/-- Claim C6: with an incomplete snapshot (any of mode/power/locked/
calibration/setpoint still absent) every guarded command returns failure
with the state unchanged, for every network oracle — the result does not
depend on the oracle at all, i.e. no network I/O is performed. -/
theorem incomplete_snapshot_refuses (st : BHT1000) (h : st.is_data_valid = false) :
    ∀ (net : Net) (temperature : ℚ) (second minute hour weekday : Nat),
      st.turn_on net = (false, st) ∧
      st.turn_off net = (false, st) ∧
      st.set_temperature temperature net = (false, st) ∧
      st.lock net = (false, st) ∧
      st.unlock net = (false, st) ∧
      st.set_manual_mode net = (false, st) ∧
      st.set_weekly_mode net = (false, st) ∧
      st.set_time second minute hour weekday net = (false, st) := by
  intro net temperature second minute hour weekday
  refine ⟨?_, ?_, ?_, ?_, ?_, ?_, ?_, ?_⟩ <;>
    simp [BHT1000.turn_on, BHT1000.turn_off, BHT1000.set_temperature, BHT1000.lock,
      BHT1000.unlock, BHT1000.set_manual_mode, BHT1000.set_weekly_mode,
      BHT1000.set_time, h]

/-- Witness for C6: a freshly constructed controller (never completed a
status read) refuses `turn_on` and `set_time` without touching the oracle. -/
theorem incomplete_snapshot_refuses_witness :
    (BHT1000.init 1).is_data_valid = false ∧
    (BHT1000.init 1).turn_on (fun _ => NetResult.err) = (false, BHT1000.init 1) ∧
    (BHT1000.init 1).set_time 0 0 0 0 (fun _ => NetResult.err) = (false, BHT1000.init 1) :=
  ⟨rfl,
    (incomplete_snapshot_refuses (BHT1000.init 1) rfl (fun _ => NetResult.err) 21 0 0 0 0).1,
    (incomplete_snapshot_refuses (BHT1000.init 1) rfl (fun _ => NetResult.err) 21 0 0 0 0).2.2.2.2.2.2.2⟩


/-- The idle/heating transition table, in the spec's terms (`none` = Unknown,
`some true` = Idle, `some false` = Heating), amended where the source
deviates: the "state unchanged" dead-band branch stores the boolean
`was_idle` back, so a previous `Unknown` inside the dead band becomes
`Idle` rather than staying `Unknown`. -/
def idleTransitionTable (was_idle powerOn : Bool)
    (temperature setpoint hysteresis : ℚ) : Option Bool :=
  if powerOn = false then some true
  else if was_idle = true ∧ temperature < setpoint - hysteresis / 2 then some false
  else if was_idle = false ∧ temperature > setpoint + hysteresis / 2 then some true
  else some was_idle

/-- Claim C2 (amended): the idle derivation after a successful status
exchange follows the transition table with `was_idle` captured from the
previous state and the new temperature/setpoint/power — except that inside
the dead band the stored state is the boolean `was_idle`, so `Unknown`
becomes `Idle` there instead of staying `Unknown`. -/
theorem applyStatus_idle_follows_table (st : BHT1000) (r : Payload) :
    (st.applyStatus r).idle =
      idleTransitionTable (BHT1000.wasIdle st.idle) (StatusPayload.is_on r)
        (StatusPayload.get_temperature r) (StatusPayload.get_setpoint r)
        st.hysteresis := by
  unfold BHT1000.applyStatus idleTransitionTable
  cases hon : StatusPayload.is_on r
  · simp [hon, STATE_ON, STATE_OFF]
  · by_cases h1 : BHT1000.wasIdle st.idle = true ∧
        StatusPayload.get_temperature r < StatusPayload.get_setpoint r - st.hysteresis / 2
    · simp [hon, STATE_ON, h1]
    · by_cases h2 : BHT1000.wasIdle st.idle = false ∧
          StatusPayload.get_temperature r > StatusPayload.get_setpoint r + st.hysteresis / 2
      · simp [hon, STATE_ON, h1, h2]
      · simp [hon, STATE_ON, h1, h2]

/-- Claim C2 counterexample: a successful status exchange with power on,
temperature equal to the setpoint (inside the dead band for hysteresis 1)
and previous idle state Unknown (`none`) stores `some true` (Idle) — the
claimed "a state of Unknown inside the dead band stays Unknown" is false. -/
theorem idle_unknown_dead_band_becomes_idle :
    (BHT1000.init 1).idle = none ∧
    ¬ ((21 : ℚ) < 21 - 1 / 2) ∧ ¬ ((21 : ℚ) > 21 + 1 / 2) ∧
    ((BHT1000.init 1).sendCommand ReadStatusCommandPayload
      (fun _ => NetResult.ok [0x50, 0x01, 0x01, 0x10, 0x00, 42, 42, 0x00])) =
      (true, (BHT1000.init 1).applyStatus ⟨0x50, 0x01, 0x01, 0x10, 0x00, 42, 42, 0x00⟩) ∧
    ((BHT1000.init 1).applyStatus ⟨0x50, 0x01, 0x01, 0x10, 0x00, 42, 42, 0x00⟩).idle
      = some true := by
  refine ⟨rfl, by norm_num, by norm_num, ?_, ?_⟩
  · have hdec : IncomingPayload.decode
        (hexlify [0x50, 0x01, 0x01, 0x10, 0x00, 42, 42, 0x00]) =
        some ⟨0x50, 0x01, 0x01, 0x10, 0x00, 42, 42, 0x00⟩ := by decide
    have hb : ReadStatusCommandPayload.getBytesHex =
        some [0xA0, 0x01, 0x01, 0x00, 0x00, 0x00, 0x00, 0x07] := by decide
    have hlen : 3 < (hexlify [(0x50 : Nat), 0x01, 0x01, 0x10, 0x00, 42, 42, 0x00]).length := by
      decide
    have hv : StatusPayload.is_valid ⟨0x50, 0x01, 0x01, 0x10, 0x00, 42, 42, 0x00⟩ = true := by
      decide
    simp [BHT1000.sendCommand, hb, hdec, hlen, hv]
  · have hon : StatusPayload.is_on ⟨0x50, 0x01, 0x01, 0x10, 0x00, 42, 42, 0x00⟩ = true := by
      decide
    have ht : StatusPayload.get_temperature ⟨0x50, 0x01, 0x01, 0x10, 0x00, 42, 42, 0x00⟩
        = 21 := by
      norm_num [StatusPayload.get_temperature]
    have hsp : StatusPayload.get_setpoint ⟨0x50, 0x01, 0x01, 0x10, 0x00, 42, 42, 0x00⟩
        = 21 := by
      norm_num [StatusPayload.get_setpoint]
    unfold BHT1000.applyStatus
    rw [hon, ht, hsp]
    norm_num [BHT1000.wasIdle, BHT1000.init, STATE_ON]

/-- `int(b"", 16)` raises `ValueError`: the empty group never parses. -/
theorem pyIntHex_nil : pyIntHex [] = none := rfl

/-- If the eighth 2-character group parsed, the input had at least 15
characters (the group `s[14:16]` was non-empty). -/
theorem length_ge_15_of_last_group (s : List Char)
    (h : (pyIntHex (pySlice s 14 16)).isSome = true) : 15 ≤ s.length := by
  by_contra hlt
  push_neg at hlt
  have hnil : pySlice s 14 16 = [] := by
    unfold pySlice
    have hd : s.drop 14 = [] := List.drop_eq_nil_of_le (by omega)
    rw [hd, List.take_nil]
  rw [hnil, pyIntHex_nil] at h
  simp at h

/-- The decode succeeds exactly when all eight groups parse. -/
theorem decode_isSome_eq (s : List Char) :
    (IncomingPayload.decode s).isSome =
      ((pyIntHex (pySlice s 0 2)).isSome && (pyIntHex (pySlice s 2 4)).isSome &&
       (pyIntHex (pySlice s 4 6)).isSome && (pyIntHex (pySlice s 6 8)).isSome &&
       (pyIntHex (pySlice s 8 10)).isSome && (pyIntHex (pySlice s 10 12)).isSome &&
       (pyIntHex (pySlice s 12 14)).isSome && (pyIntHex (pySlice s 14 16)).isSome) := by
  unfold IncomingPayload.decode
  cases pyIntHex (pySlice s 0 2) <;> simp
  cases pyIntHex (pySlice s 2 4) <;> simp
  cases pyIntHex (pySlice s 4 6) <;> simp
  cases pyIntHex (pySlice s 6 8) <;> simp
  cases pyIntHex (pySlice s 8 10) <;> simp
  cases pyIntHex (pySlice s 10 12) <;> simp
  cases pyIntHex (pySlice s 12 14) <;> simp

/-- A slice with both bounds at most 16 sees only the first 16 characters. -/
theorem pySlice_take16 (s : List Char) (a b : Nat) (hb : b ≤ 16) :
    pySlice (s.take 16) a b = pySlice s a b := by
  unfold pySlice
  rw [List.drop_take 16 a s, List.take_take]
  congr 1
  omega

/-- Claim C5 (amended): decoding fails exactly when fewer than 15 characters
are present or one of the eight groups (2 characters each, the eighth
possibly truncated to a single character when only 15 are present) does not
parse as base-16 integer text; on success the 16-character prefix is parsed
and everything beyond it is ignored. -/
theorem decode_characterization (s : List Char) :
    ((IncomingPayload.decode s).isSome = true ↔
      (15 ≤ s.length ∧
        (pyIntHex (pySlice s 0 2)).isSome = true ∧
        (pyIntHex (pySlice s 2 4)).isSome = true ∧
        (pyIntHex (pySlice s 4 6)).isSome = true ∧
        (pyIntHex (pySlice s 6 8)).isSome = true ∧
        (pyIntHex (pySlice s 8 10)).isSome = true ∧
        (pyIntHex (pySlice s 10 12)).isSome = true ∧
        (pyIntHex (pySlice s 12 14)).isSome = true ∧
        (pyIntHex (pySlice s 14 16)).isSome = true)) ∧
    IncomingPayload.decode s = IncomingPayload.decode (s.take 16) := by
  constructor
  · rw [decode_isSome_eq]
    constructor
    · intro h
      simp only [Bool.and_eq_true] at h
      obtain ⟨⟨⟨⟨⟨⟨⟨h0, h1⟩, h2⟩, h3⟩, h4⟩, h5⟩, h6⟩, h7⟩ := h
      exact ⟨length_ge_15_of_last_group s h7, h0, h1, h2, h3, h4, h5, h6, h7⟩
    · intro h
      obtain ⟨_, h0, h1, h2, h3, h4, h5, h6, h7⟩ := h
      simp [h0, h1, h2, h3, h4, h5, h6, h7]
  · unfold IncomingPayload.decode
    simp only [pySlice_take16 s 0 2 (by omega), pySlice_take16 s 2 4 (by omega),
      pySlice_take16 s 4 6 (by omega), pySlice_take16 s 6 8 (by omega),
      pySlice_take16 s 8 10 (by omega), pySlice_take16 s 10 12 (by omega),
      pySlice_take16 s 12 14 (by omega), pySlice_take16 s 14 16 (by omega)]

/-- Claim C5 counterexample: an input with only 15 hex characters decodes
successfully (the eighth group is the single character `e`), refuting
"fails exactly when fewer than 16 hex characters are present". -/
theorem decode_fifteen_hex_chars_succeeds :
    "0123456789abcde".toList.length = 15 ∧
    IncomingPayload.decode "0123456789abcde".toList =
      some ⟨0x01, 0x23, 0x45, 0x67, 0x89, 0xab, 0xcd, 0x0e⟩ := by
  constructor
  · rfl
  · decide

set_option maxRecDepth 40000 in
/-- `hexlify` of one byte parses back to that byte: the two characters are
plain hex digits (no sign, whitespace or prefix), so `int(.., 16)` returns
`high * 16 + low = b`. -/
theorem pyIntHex_byteToHex : ∀ b : Nat, b < 256 → pyIntHex (byteToHex b) = some (b : Int) := by
  decide

/-- Decoding the hexlified form of eight bytes recovers exactly those eight
fields. -/
theorem decode_hexlify_bytes (b0 b1 b2 b3 b4 b5 b6 b7 : Nat)
    (h0 : b0 < 256) (h1 : b1 < 256) (h2 : b2 < 256) (h3 : b3 < 256)
    (h4 : b4 < 256) (h5 : b5 < 256) (h6 : b6 < 256) (h7 : b7 < 256) :
    IncomingPayload.decode (hexlify [b0, b1, b2, b3, b4, b5, b6, b7]) =
      some ⟨(b0 : Int), (b1 : Int), (b2 : Int), (b3 : Int), (b4 : Int),
        (b5 : Int), (b6 : Int), (b7 : Int)⟩ := by
  have e0 : pySlice (hexlify [b0, b1, b2, b3, b4, b5, b6, b7]) 0 2 = byteToHex b0 := rfl
  have e1 : pySlice (hexlify [b0, b1, b2, b3, b4, b5, b6, b7]) 2 4 = byteToHex b1 := rfl
  have e2 : pySlice (hexlify [b0, b1, b2, b3, b4, b5, b6, b7]) 4 6 = byteToHex b2 := rfl
  have e3 : pySlice (hexlify [b0, b1, b2, b3, b4, b5, b6, b7]) 6 8 = byteToHex b3 := rfl
  have e4 : pySlice (hexlify [b0, b1, b2, b3, b4, b5, b6, b7]) 8 10 = byteToHex b4 := rfl
  have e5 : pySlice (hexlify [b0, b1, b2, b3, b4, b5, b6, b7]) 10 12 = byteToHex b5 := rfl
  have e6 : pySlice (hexlify [b0, b1, b2, b3, b4, b5, b6, b7]) 12 14 = byteToHex b6 := rfl
  have e7 : pySlice (hexlify [b0, b1, b2, b3, b4, b5, b6, b7]) 14 16 = byteToHex b7 := rfl
  unfold IncomingPayload.decode
  simp only [e0, e1, e2, e3, e4, e5, e6, e7,
    pyIntHex_byteToHex b0 h0, pyIntHex_byteToHex b1 h1, pyIntHex_byteToHex b2 h2,
    pyIntHex_byteToHex b3 h3, pyIntHex_byteToHex b4 h4, pyIntHex_byteToHex b5 h5,
    pyIntHex_byteToHex b6 h6, pyIntHex_byteToHex b7 h7]
  rfl

/-- The checksum of every outgoing payload is one byte. -/
theorem checksum_range (p : OutgoingPayload) : 0 ≤ p.checksum ∧ p.checksum < 256 := by
  unfold OutgoingPayload.checksum calculate_checksum
  constructor
  · exact Int.ofNat_nonneg _
  · have hlt : (((p.command + ID0 + ID1 + p.data0 + p.data1 + p.data2 + p.data3) % 256).toNat)
        < 256 := by
      have h1 : 0 ≤ (p.command + ID0 + ID1 + p.data0 + p.data1 + p.data2 + p.data3) % 256 :=
        Int.emod_nonneg _ (by norm_num)
      have h2 : (p.command + ID0 + ID1 + p.data0 + p.data1 + p.data2 + p.data3) % 256 < 256 :=
        Int.emod_lt_of_pos _ (by norm_num)
      omega
    have hxor : ((((p.command + ID0 + ID1 + p.data0 + p.data1 + p.data2 + p.data3) % 256).toNat)
        ^^^ 0xA5) < 256 := by
      have h8 : (((p.command + ID0 + ID1 + p.data0 + p.data1 + p.data2 + p.data3) % 256).toNat)
          < 2 ^ 8 := by omega
      have h9 : (0xA5 : Nat) < 2 ^ 8 := by norm_num
      have := Nat.xor_lt_two_pow h8 h9
      omega
    have := Int.ofNat_lt.mpr hxor
    simpa using this

/-- Claim C7: for all in-range byte quintuples, encoding and then decoding
(the hex text of) the frame yields a checksum field equal to
`((command + 1 + 1 + data0 + data1 + data2 + data3) & 0xFF) XOR 0xA5`
(with `& 0xFF` as `% 256`), and the encoded frame's last byte — the wire
checksum — equals the same formula. -/
theorem encode_decode_checksum (c d0 d1 d2 d3 : Int)
    (hc : 0 ≤ c ∧ c < 256) (h0 : 0 ≤ d0 ∧ d0 < 256) (h1 : 0 ≤ d1 ∧ d1 < 256)
    (h2 : 0 ≤ d2 ∧ d2 < 256) (h3 : 0 ≤ d3 ∧ d3 < 256) :
    ∃ (bs : List Nat) (fr : Payload),
      OutgoingPayload.getBytesHex ⟨c, d0, d1, d2, d3⟩ = some bs ∧
      IncomingPayload.decode (hexlify bs) = some fr ∧
      fr.checksum = Int.ofNat ((((c + 1 + 1 + d0 + d1 + d2 + d3) % 256).toNat) ^^^ 0xA5) ∧
      bs.getLast? = some ((((c + 1 + 1 + d0 + d1 + d2 + d3) % 256).toNat) ^^^ 0xA5) := by
  have hck := checksum_range ⟨c, d0, d1, d2, d3⟩
  refine ⟨[c.toNat, 1, 1, d0.toNat, d1.toNat, d2.toNat, d3.toNat,
      (OutgoingPayload.checksum ⟨c, d0, d1, d2, d3⟩).toNat],
    ⟨(c.toNat : Int), 1, 1, (d0.toNat : Int), (d1.toNat : Int), (d2.toNat : Int),
      (d3.toNat : Int), ((OutgoingPayload.checksum ⟨c, d0, d1, d2, d3⟩).toNat : Int)⟩,
    ?_, ?_, ?_, ?_⟩
  · unfold OutgoingPayload.getBytesHex
    rw [if_pos ⟨hc.1, hc.2, h0.1, h0.2, h1.1, h1.2, h2.1, h2.2, h3.1, h3.2⟩]
    rfl
  · exact decode_hexlify_bytes c.toNat 1 1 d0.toNat d1.toNat d2.toNat d3.toNat
      (OutgoingPayload.checksum ⟨c, d0, d1, d2, d3⟩).toNat
      (by omega) (by omega) (by omega) (by omega) (by omega) (by omega) (by omega)
      (by omega)
  · rfl
  · rfl

/-- Witness for C7 at the concrete quintuple `(0xA1, 0x1C, 0xFB, 0x2B, 0x00)`. -/
theorem encode_decode_checksum_witness :
    ∃ (bs : List Nat) (fr : Payload),
      OutgoingPayload.getBytesHex ⟨0xA1, 0x1C, 0xFB, 0x2B, 0x00⟩ = some bs ∧
      IncomingPayload.decode (hexlify bs) = some fr ∧
      fr.checksum = Int.ofNat (((((0xA1 : Int) + 1 + 1 + 0x1C + 0xFB + 0x2B + 0x00) % 256).toNat) ^^^ 0xA5) ∧
      bs.getLast? = some (((((0xA1 : Int) + 1 + 1 + 0x1C + 0xFB + 0x2B + 0x00) % 256).toNat) ^^^ 0xA5) :=
  encode_decode_checksum 0xA1 0x1C 0xFB 0x2B 0x00 (by norm_num) (by norm_num)
    (by norm_num) (by norm_num) (by norm_num)

/-- Claim C8: encoding an outgoing command with in-range fields and decoding
the hex text of its bytes as a status frame yields identical
`command`/`data0..data3` values, with `id0 = id1 = 0x01` in the decoded
frame. -/
theorem encode_decode_roundtrip (c d0 d1 d2 d3 : Int)
    (hc : 0 ≤ c ∧ c < 256) (h0 : 0 ≤ d0 ∧ d0 < 256) (h1 : 0 ≤ d1 ∧ d1 < 256)
    (h2 : 0 ≤ d2 ∧ d2 < 256) (h3 : 0 ≤ d3 ∧ d3 < 256) :
    ∃ (bs : List Nat) (fr : Payload),
      OutgoingPayload.getBytesHex ⟨c, d0, d1, d2, d3⟩ = some bs ∧
      IncomingPayload.decode (hexlify bs) = some fr ∧
      fr.command = c ∧ fr.data0 = d0 ∧ fr.data1 = d1 ∧ fr.data2 = d2 ∧
      fr.data3 = d3 ∧ fr.id0 = 0x01 ∧ fr.id1 = 0x01 := by
  have hck := checksum_range ⟨c, d0, d1, d2, d3⟩
  refine ⟨[c.toNat, 1, 1, d0.toNat, d1.toNat, d2.toNat, d3.toNat,
      (OutgoingPayload.checksum ⟨c, d0, d1, d2, d3⟩).toNat],
    ⟨(c.toNat : Int), 1, 1, (d0.toNat : Int), (d1.toNat : Int), (d2.toNat : Int),
      (d3.toNat : Int), ((OutgoingPayload.checksum ⟨c, d0, d1, d2, d3⟩).toNat : Int)⟩,
    ?_, ?_, ?_, ?_, ?_, ?_, ?_, rfl, rfl⟩
  · unfold OutgoingPayload.getBytesHex
    rw [if_pos ⟨hc.1, hc.2, h0.1, h0.2, h1.1, h1.2, h2.1, h2.2, h3.1, h3.2⟩]
    rfl
  · exact decode_hexlify_bytes c.toNat 1 1 d0.toNat d1.toNat d2.toNat d3.toNat
      (OutgoingPayload.checksum ⟨c, d0, d1, d2, d3⟩).toNat
      (by omega) (by omega) (by omega) (by omega) (by omega) (by omega) (by omega)
      (by omega)
  · exact Int.toNat_of_nonneg hc.1
  · exact Int.toNat_of_nonneg h0.1
  · exact Int.toNat_of_nonneg h1.1
  · exact Int.toNat_of_nonneg h2.1
  · exact Int.toNat_of_nonneg h3.1

/-- Witness for C8 at the concrete quintuple `(0xA8, 30, 15, 12, 3)`
(a `SetTime`-shaped frame). -/
theorem encode_decode_roundtrip_witness :
    ∃ (bs : List Nat) (fr : Payload),
      OutgoingPayload.getBytesHex ⟨0xA8, 30, 15, 12, 3⟩ = some bs ∧
      IncomingPayload.decode (hexlify bs) = some fr ∧
      fr.command = 0xA8 ∧ fr.data0 = 30 ∧ fr.data1 = 15 ∧ fr.data2 = 12 ∧
      fr.data3 = 3 ∧ fr.id0 = 0x01 ∧ fr.id1 = 0x01 :=
  encode_decode_roundtrip 0xA8 30 15 12 3 (by norm_num) (by norm_num) (by norm_num)
    (by norm_num) (by norm_num)

/-- Claim C9: `SetAllData` encodes a negative calibration `c` as `c + 256`
(so `-5` becomes `251`) and a non-negative one unchanged; the decoder always
computes `data1 - 256`, so a status frame with `data1 = 251` yields
calibration `-5`. -/
theorem calibration_encoding :
    (∀ (mode power lock : String) (setpoint : ℚ),
      (SetAllDataCommandPayload mode power lock (-5) setpoint).data1 = 251) ∧
    (∀ (mode power lock : String) (calibration : Int) (setpoint : ℚ),
      (SetAllDataCommandPayload mode power lock calibration setpoint).data1 =
        if calibration < 0 then calibration + 256 else calibration) ∧
    (∀ p : Payload, StatusPayload.get_calibration p = p.data1 - 256) ∧
    (∀ p : Payload, p.data1 = 251 → StatusPayload.get_calibration p = -5) := by
  refine ⟨fun mode power lock setpoint => by norm_num [SetAllDataCommandPayload],
    fun mode power lock calibration setpoint => rfl,
    fun p => rfl,
    fun p h => ?_⟩
  simp [StatusPayload.get_calibration, h]

/-- Witness for C9: decoding a concrete status frame with `data1 = 251`. -/
theorem calibration_encoding_witness :
    StatusPayload.get_calibration ⟨0x50, 0x01, 0x01, 0x00, 251, 43, 40, 0x00⟩ = -5 :=
  calibration_encoding.2.2.2 ⟨0x50, 0x01, 0x01, 0x00, 251, 43, 40, 0x00⟩ rfl

/-- After a successful snapshot update every mirrored field is `some`. -/
theorem applyStatus_fields_set (st : BHT1000) (r : Payload) :
    (st.applyStatus r).current_temperature.isSome = true ∧
    (st.applyStatus r).setpoint.isSome = true ∧
    (st.applyStatus r).calibration.isSome = true ∧
    (st.applyStatus r).power.isSome = true ∧
    (st.applyStatus r).mode.isSome = true ∧
    (st.applyStatus r).locked.isSome = true ∧
    (st.applyStatus r).idle.isSome = true := by
  unfold BHT1000.applyStatus
  exact ⟨rfl, rfl, rfl, rfl, rfl, rfl, rfl⟩

/-- Every public operation leaves the state unchanged or replaces the
snapshot wholesale via `applyStatus`. -/
theorem runOp_cases (op : ControllerOp) (st : BHT1000) (net : Net) :
    (runOp op st net).2 = st ∨ ∃ r, (runOp op st net).2 = st.applyStatus r := by
  have hmono : ∀ cmd : OutgoingPayload, (st.sendCommand cmd net).2 = st ∨
      ∃ r, (st.sendCommand cmd net).2 = st.applyStatus r := by
    intro cmd
    rcases sendCommand_cases st cmd net with h | ⟨r, _, h⟩
    · exact Or.inl (by rw [h])
    · exact Or.inr ⟨r, by rw [h]⟩
  cases op with
  | readStatus =>
    simpa only [runOp, BHT1000.read_status] using hmono ReadStatusCommandPayload
  | turnOn =>
    simp only [runOp, BHT1000.turn_on]
    split
    · exact hmono _
    · exact Or.inl rfl
  | turnOff =>
    simp only [runOp, BHT1000.turn_off]
    split
    · exact hmono _
    · exact Or.inl rfl
  | setTemperature t =>
    simp only [runOp, BHT1000.set_temperature]
    split
    · exact hmono _
    · exact Or.inl rfl
  | lockOp =>
    simp only [runOp, BHT1000.lock]
    split
    · exact hmono _
    · exact Or.inl rfl
  | unlockOp =>
    simp only [runOp, BHT1000.unlock]
    split
    · exact hmono _
    · exact Or.inl rfl
  | setManualMode =>
    simp only [runOp, BHT1000.set_manual_mode]
    split
    · exact hmono _
    · exact Or.inl rfl
  | setWeeklyMode =>
    simp only [runOp, BHT1000.set_weekly_mode]
    split
    · exact hmono _
    · exact Or.inl rfl
  | setTime s m h w =>
    simp only [runOp, BHT1000.set_time]
    split
    · exact hmono _
    · exact Or.inl rfl

/-- Claim C10: snapshot completeness is monotone.  For every public
operation each of the five guarded fields never goes from present back to
absent; every exchange that returns `true` leaves all six mirrored fields
set; hence once `__is_data_valid` holds it holds after every subsequent
operation. -/
theorem snapshot_completeness_monotone (op : ControllerOp) (st : BHT1000) (net : Net) :
    ((st.mode.isSome = true → (runOp op st net).2.mode.isSome = true) ∧
     (st.power.isSome = true → (runOp op st net).2.power.isSome = true) ∧
     (st.locked.isSome = true → (runOp op st net).2.locked.isSome = true) ∧
     (st.calibration.isSome = true → (runOp op st net).2.calibration.isSome = true) ∧
     (st.setpoint.isSome = true → (runOp op st net).2.setpoint.isSome = true)) ∧
    (∀ cmd : OutgoingPayload, (st.sendCommand cmd net).1 = true →
      (st.sendCommand cmd net).2.current_temperature.isSome = true ∧
      (st.sendCommand cmd net).2.setpoint.isSome = true ∧
      (st.sendCommand cmd net).2.calibration.isSome = true ∧
      (st.sendCommand cmd net).2.power.isSome = true ∧
      (st.sendCommand cmd net).2.mode.isSome = true ∧
      (st.sendCommand cmd net).2.locked.isSome = true) ∧
    (st.is_data_valid = true → (runOp op st net).2.is_data_valid = true) := by
  refine ⟨?_, ?_, ?_⟩
  · rcases runOp_cases op st net with h | ⟨r, h⟩
    · rw [h]
      exact ⟨id, id, id, id, id⟩
    · rw [h]
      have hf := applyStatus_fields_set st r
      exact ⟨fun _ => hf.2.2.2.2.1, fun _ => hf.2.2.2.1, fun _ => hf.2.2.2.2.2.1,
        fun _ => hf.2.2.1, fun _ => hf.2.1⟩
  · intro cmd h
    rcases sendCommand_cases st cmd net with hc | ⟨r, _, hc⟩
    · rw [hc] at h
      simp at h
    · rw [hc]
      have hf := applyStatus_fields_set st r
      exact ⟨hf.1, hf.2.1, hf.2.2.1, hf.2.2.2.1, hf.2.2.2.2.1, hf.2.2.2.2.2.1⟩
  · intro h
    rcases runOp_cases op st net with hc | ⟨r, hc⟩
    · rw [hc]
      exact h
    · rw [hc]
      have hf := applyStatus_fields_set st r
      unfold BHT1000.is_data_valid
      simp [hf.2.2.2.2.1, hf.2.2.2.1, hf.2.2.2.2.2.1, hf.2.2.1, hf.2.1]

/-- Witness for C10: a complete snapshot stays complete across a failing
`lock` exchange. -/
theorem snapshot_completeness_monotone_witness :
    (BHT1000.mk 1 none (some 21) (some "on") (some "manual") (some "off") (some 0)
      none).is_data_valid = true ∧
    (runOp ControllerOp.lockOp
      (BHT1000.mk 1 none (some 21) (some "on") (some "manual") (some "off") (some 0) none)
      (fun _ => NetResult.err)).2.is_data_valid = true :=
  ⟨rfl, (snapshot_completeness_monotone ControllerOp.lockOp
    (BHT1000.mk 1 none (some 21) (some "on") (some "manual") (some "off") (some 0) none)
    (fun _ => NetResult.err)).2.2 rfl⟩

/-- Claim C4 counterexample: position 4 of the completed exchange's socket
trace is the read (`recv 64`), and the timeout in effect there is the single
`settimeout(10)` set before `connect` — there is no separate 3-second read
timeout anywhere in the exchange. -/
theorem recv_timeout_is_ten_not_three :
    (socketTrace ExchangePhase.complete)[4]? = some (SocketOp.recv 64) ∧
    timeoutAt (socketTrace ExchangePhase.complete) 4 = some 10 ∧
    timeoutAt (socketTrace ExchangePhase.complete) 4 ≠ some 3 ∧
    (∀ i, i < (socketTrace ExchangePhase.complete).length →
      (socketTrace ExchangePhase.complete)[i]? ≠ some (SocketOp.settimeout 3)) := by
  refine ⟨by decide, by decide, by decide, by decide⟩

/-- The sizes requested by the `recv` calls of an operation list. -/
def recvSizes (ops : List SocketOp) : List Nat :=
  ops.filterMap fun op =>
    match op with
    | SocketOp.recv n => some n
    | _ => none

/-- Claim C4 (amended): in every command exchange a single 10-second timeout
is set before `connect` and also governs the read phase (there is no
separate 3-second read timeout); every read takes at most 64 bytes; and on
every exit path — completion or an exception at connect, send or receive —
the trace ends by closing the socket, before the response is interpreted. -/
theorem exchange_socket_discipline (phase : ExchangePhase) :
    (∀ i, i < (socketTrace phase).length →
      (socketTrace phase)[i]? = some SocketOp.connect →
        timeoutAt (socketTrace phase) i = some 10) ∧
    (∀ n ∈ recvSizes (socketTrace phase), n = 64) ∧
    (∀ i, i < (socketTrace phase).length →
      (socketTrace phase)[i]? = some (SocketOp.recv 64) →
        timeoutAt (socketTrace phase) i = some 10) ∧
    (socketTrace phase).getLast? = some SocketOp.close := by
  cases phase
  · exact ⟨by decide, by decide, by decide, rfl⟩
  · exact ⟨by decide, by decide, by decide, rfl⟩
  · exact ⟨by decide, by decide, by decide, rfl⟩
  · exact ⟨by decide, by decide, by decide, rfl⟩

/-- Witness for C4 (amended) on the completed exchange: the read at position
4 is bounded by 64 bytes under the 10-second timeout, and the trace ends
with `close`. -/
theorem exchange_socket_discipline_witness :
    timeoutAt (socketTrace ExchangePhase.complete) 4 = some 10 ∧
    (socketTrace ExchangePhase.complete).getLast? = some SocketOp.close :=
  ⟨(exchange_socket_discipline ExchangePhase.complete).2.2.1 4 (by decide) (by decide),
    (exchange_socket_discipline ExchangePhase.complete).2.2.2⟩

/-- Witness for C2 (amended) at a concrete state and response. -/
theorem applyStatus_idle_follows_table_witness :
    ((BHT1000.init 1).applyStatus ⟨0x50, 0x01, 0x01, 0x10, 0x00, 42, 42, 0x00⟩).idle =
      idleTransitionTable (BHT1000.wasIdle (BHT1000.init 1).idle)
        (StatusPayload.is_on ⟨0x50, 0x01, 0x01, 0x10, 0x00, 42, 42, 0x00⟩)
        (StatusPayload.get_temperature ⟨0x50, 0x01, 0x01, 0x10, 0x00, 42, 42, 0x00⟩)
        (StatusPayload.get_setpoint ⟨0x50, 0x01, 0x01, 0x10, 0x00, 42, 42, 0x00⟩)
        (BHT1000.init 1).hysteresis :=
  applyStatus_idle_follows_table (BHT1000.init 1) ⟨0x50, 0x01, 0x01, 0x10, 0x00, 42, 42, 0x00⟩

/-- Witness for C5 (amended) at a concrete response text. -/
theorem decode_characterization_witness :
    IncomingPayload.decode "50010110002a2a00".toList =
      IncomingPayload.decode ("50010110002a2a00".toList.take 16) :=
  (decode_characterization "50010110002a2a00".toList).2
